import Mathlib

/-!
Verification of `rectifier.py` (luckylinux/R48_Rectifier).

The development shallowly embeds the parts of `rectifier.py` that the
claims C1-C10 are about:

* `float_to_bytearray` (rectifier.py lines 18-20): a Python float is packed
  with `struct.pack('<f', f)`, read back with `struct.unpack('<I', ...)`
  (which recovers the standard IEEE-754 bit pattern as an integer), printed
  with `hex(...)`, stripped with `.lstrip('0x').rstrip('L')` and parsed with
  `bytearray.fromhex`.  We model the float-to-bits conversion as `f32bits`
  (round-to-nearest-even, positive normal range, which covers every value the
  modelled call sites can produce), the hex digit string of the integer as
  `hexDigits`, and `fromhex` as `fromhexPairs`.
* the private command encoders `__set_voltage`, `__set_current_percentage`,
  `__set_current_value` (lines 447-484) as `set_voltage`,
  `set_current_percentage`, `set_current_value` returning a `SendResult`
  (`sent frame` models a call of `__send_can_message data`, `validationError`
  models the local rejection branch that only prints a range message).
* the object state built by `__init__` (lines 98-127) as `RectState`: a heap
  of field dictionaries plus one reference per attribute.  The constructor
  binds `Readout`, `Counter_Invalid`, `Status` and `Counter_Unchanged` to the
  *same* `readDictionnary` object, which the model reproduces by giving all
  four references the same heap address; `Received_Timestamps` is never
  created anywhere in the class, recorded as `tsDefined := false`.
* `data_processing` (lines 271-309), `data_analysis` (lines 312-332) and the
  receive listener `__can_listener_store` (lines 336-358) as state
  transformers in `Except PyErr RectState`, with Python's runtime behaviour
  on the actually occurring values (`dict + int` raises `TypeError`, a read
  of a missing attribute raises `AttributeError`, an unbound name raises
  `NameError`, calling a method with more positional arguments than its
  parameter list accepts raises `TypeError`).
-/

/-! ### Hex digit / byte layer (models hex(), lstrip('0x'), bytearray.fromhex) -/

/-- Hex digits of `n`, least significant first, via repeated `% 16` / `/ 16`.
`fuel` only bounds the recursion; `hexDigitsRevAux n n` extracts all digits
because `n / 16 < n` for `n > 0`.  `hexDigitsRev 0 = []` matches the source:
`hex(0) = "0x0"` and `"0x0".lstrip('0x') = ""`. -/
def hexDigitsRevAux : Nat → Nat → List Nat
  | 0, _ => []
  | fuel + 1, n => if n = 0 then [] else n % 16 :: hexDigitsRevAux fuel (n / 16)

/-- Digits of `hex(n).lstrip('0x')`, least significant first.  For `n > 0`,
`hex` prints no leading zero digits, so `lstrip('0x')` removes exactly the
`0x` prefix and the digit list is the plain base-16 expansion.  The
`.rstrip('L')` in the source is a no-op (hex digits are lowercase `0-9a-f`). -/
def hexDigitsRev (n : Nat) : List Nat := hexDigitsRevAux n n

/-- Digits of `hex(n).lstrip('0x')`, most significant first, as
`bytearray.fromhex` reads them. -/
def hexDigits (n : Nat) : List Nat := (hexDigitsRev n).reverse

/-- `bytearray.fromhex` on a digit list: consumes digit pairs left to right,
each pair `a b` becoming the byte `16*a + b`; a string with an odd number of
hex digits raises `ValueError`, modelled as `none`. -/
def fromhexPairs : List Nat → Option (List Nat)
  | [] => some []
  | [_] => none
  | a :: b :: rest => (fromhexPairs rest).map (fun t => (16 * a + b) :: t)

/-- The four bytes of a 32-bit word, most significant byte first
(16777216 = 2^24, 65536 = 2^16). -/
def beBytes (n : Nat) : List Nat := [n / 16777216 % 256, n / 65536 % 256, n / 256 % 256, n % 256]

/-- The four bytes of a 32-bit word, least significant byte first. -/
def leBytes (n : Nat) : List Nat := [n % 256, n / 256 % 256, n / 65536 % 256, n / 16777216 % 256]

/-! ### IEEE-754 single precision (models struct.pack('<f', ...) / struct.unpack('>f', ...)) -/

/-- Round a rational to the nearest integer, ties to even: the rounding mode
of IEEE-754 conversions performed by `struct.pack`. -/
def roundNearestEven (q : ℚ) : ℤ :=
  if q - Int.floor q < 1 / 2 then Int.floor q
  else if q - Int.floor q > 1 / 2 then Int.floor q + 1
  else if Int.floor q % 2 = 0 then Int.floor q else Int.floor q + 1

/-- Bit pattern of the IEEE-754 binary32 value nearest to `q`
(8388608 = 2^23, 16777216 = 2^24).  Faithful to `struct.pack('<f', q)` for
positive values in the normal range without exponent overflow, which covers
every value the modelled call sites feed it (voltages in [41, 58.5] and
current-limit fractions in [0.1, 1.21]); `q ≤ 0` is mapped to the bits of
+0.0, and subnormal/overflow handling is not modelled because no modelled
path reaches it.  The intermediate float64 rounding Python performs before
the float32 conversion does not change the result at the evaluated points
(the float64 error is orders of magnitude below the float32 rounding step). -/
def f32bits (q : ℚ) : Nat :=
  if q ≤ 0 then 0
  else if roundNearestEven (q * (2 : ℚ) ^ ((23 : ℤ) - Int.log 2 q)) = (16777216 : ℤ) then
    (Int.log 2 q + 128).toNat * 8388608
  else
    (Int.log 2 q + 127).toNat * 8388608 +
      (roundNearestEven (q * (2 : ℚ) ^ ((23 : ℤ) - Int.log 2 q)) - 8388608).toNat

/-- Value of an IEEE-754 binary32 bit pattern (2147483648 = 2^31,
8388608 = 2^23); models `struct.unpack('>f', ...)` applied to the four bytes
assembled most significant first.  Exponent 255 (inf/NaN) is given the value
of the same formula, far outside every plausibility range used below. -/
def val32 (b : Nat) : ℚ :=
  let s := b / 2147483648 % 2
  let e := b / 8388608 % 256
  let m := b % 8388608
  let mag : ℚ :=
    if e = 0 then (m : ℚ) / 8388608 * (2 : ℚ) ^ (-(126 : ℤ))
    else (1 + (m : ℚ) / 8388608) * (2 : ℚ) ^ ((e : ℤ) - 127)
  if s = 1 then -mag else mag

/-- `float_to_bytearray(f)` (rectifier.py lines 18-20): the hex digit string
of the float's bit pattern, parsed back into bytes by `fromhex`.  Because
`hex` prints the integer most significant digit first, the resulting
bytearray holds the float's bytes in big-endian order. -/
def float_to_bytearray (q : ℚ) : Option (List Nat) := fromhexPairs (hexDigits (f32bits q))

/-! ### Command encoders (rectifier.py lines 447-484) -/

/-- Class constants of `Rectifier` used by the encoders (rectifier.py
lines 47-59); 117/2 = 58.5, 125/2 = 62.5, 11/2 = 5.5. -/
abbrev OUTPUT_VOLTAGE_MIN : ℚ := 41

abbrev OUTPUT_VOLTAGE_MAX : ℚ := 117 / 2

abbrev OUTPUT_CURRENT_RATED_VALUE : ℚ := 125 / 2

abbrev OUTPUT_CURRENT_RATED_PERCENTAGE_MIN : ℚ := 10

abbrev OUTPUT_CURRENT_RATED_PERCENTAGE_MAX : ℚ := 121

abbrev OUTPUT_CURRENT_RATED_PERCENTAGE : ℚ := 121

abbrev OUTPUT_CURRENT_MIN : ℚ := 11 / 2

abbrev OUTPUT_CURRENT_MAX : ℚ := OUTPUT_CURRENT_RATED_VALUE

abbrev TEMPERATURE_MIN : ℚ := -40

abbrev TEMPERATURE_MAX : ℚ := 60

abbrev INPUT_VOLTAGE_MIN : ℚ := -40

abbrev INPUT_VOLTAGE_MAX : ℚ := 60

abbrev MAX_COUNT_INVALID_DATA : ℚ := 32

abbrev MAX_COUNT_UNCHANGED_DATA : ℚ := 32

/-- Outcome of one call of a private setter: `sent frame` models
`self.__send_can_message(data)`, `validationError` models the `else` branch
that only prints the allowed range and transmits nothing, `encodeError`
models a `ValueError` escaping from `bytearray.fromhex`. -/
inductive SendResult where
  | sent (frame : List Nat)
  | validationError
  | encodeError
deriving DecidableEq, Repr

/-- `__set_voltage(voltage, fixed)` (rectifier.py lines 447-454). -/
def set_voltage (q : ℚ) (fixed : Bool) : SendResult :=
  if OUTPUT_VOLTAGE_MIN ≤ q ∧ q ≤ OUTPUT_VOLTAGE_MAX then
    match float_to_bytearray q with
    | some b => .sent ([0x03, 0xF0, 0x00, if fixed then 0x24 else 0x21] ++ b)
    | none => .encodeError
  else .validationError

/-- `__set_current_percentage(current, fixed)` (rectifier.py lines 462-470). -/
def set_current_percentage (q : ℚ) (fixed : Bool) : SendResult :=
  if OUTPUT_CURRENT_RATED_PERCENTAGE_MIN ≤ q ∧ q ≤ OUTPUT_CURRENT_RATED_PERCENTAGE_MAX then
    match float_to_bytearray (q / 100) with
    | some b => .sent ([0x03, 0xF0, 0x00, if fixed then 0x19 else 0x22] ++ b)
    | none => .encodeError
  else .validationError

/-- `__set_current_value(current, fixed)` (rectifier.py lines 478-484). -/
def set_current_value (q : ℚ) (fixed : Bool) : SendResult :=
  if OUTPUT_CURRENT_MIN ≤ q ∧ q ≤ OUTPUT_CURRENT_MAX then
    set_current_percentage (q / OUTPUT_CURRENT_RATED_VALUE * OUTPUT_CURRENT_RATED_PERCENTAGE) fixed
  else .validationError

/-! ### Python runtime values and errors -/

/-- The Python values that can actually appear in the read-side stores:
numbers (`int`/`float`, uniformly modelled as ℚ since every number the code
handles is exactly representable and compared numerically), status strings,
and the `{'Value': q}` dictionaries created by the constructor. -/
inductive PyVal where
  | num (q : ℚ)
  | str (s : String)
  | vdict (q : ℚ)
deriving DecidableEq, Repr

/-- The Python exceptions the modelled code can raise. -/
inductive PyErr where
  | typeError
  | attributeError
  | nameError
  | indexError
  | keyError
  | structError
  | zeroDivisionError
deriving DecidableEq, Repr

/-- Python `+` on the values above: numbers add, strings concatenate, a
`dict + int` (the case `Counter_Invalid[f] += 1` actually hits) raises
`TypeError`, as does `str + int`. -/
def pyAdd (a b : PyVal) : Except PyErr PyVal :=
  match a, b with
  | .num x, .num y => .ok (.num (x + y))
  | .str x, .str y => .ok (.str (x ++ y))
  | _, _ => .error .typeError

/-- Python `==`: numeric equality between numbers, content equality between
same-type values, `False` between different types (never an error). -/
def pyEq (a b : PyVal) : Bool :=
  match a, b with
  | .num x, .num y => decide (x = y)
  | .str x, .str y => decide (x = y)
  | .vdict x, .vdict y => decide (x = y)
  | _, _ => false

/-- Python `>=` : defined between numbers, `TypeError` otherwise. -/
def pyGe (a b : PyVal) : Except PyErr Bool :=
  match a, b with
  | .num x, .num y => .ok (decide (y ≤ x))
  | _, _ => .error .typeError

/-- Python `>` : defined between numbers, `TypeError` otherwise. -/
def pyGt (a b : PyVal) : Except PyErr Bool :=
  match a, b with
  | .num x, .num y => .ok (decide (y < x))
  | _, _ => .error .typeError

/-- Python `*` : defined between numbers; `float * dict`
(the case `0.95*self.Readout['Output_Current_Limit']` actually hits) and
`float * str` raise `TypeError`. -/
def pyMul (a b : PyVal) : Except PyErr PyVal :=
  match a, b with
  | .num x, .num y => .ok (.num (x * y))
  | _, _ => .error .typeError

/-- Python `/` : defined between numbers, raising `ZeroDivisionError` on a
zero denominator; `TypeError` otherwise. -/
def pyDiv (a b : PyVal) : Except PyErr PyVal :=
  match a, b with
  | .num x, .num y => if y = 0 then .error .zeroDivisionError else .ok (.num (x / y))
  | _, _ => .error .typeError

/-- Python subscript `a['Value']` as used by `data_analysis`: works on the
`{'Value': q}` dictionaries, raises `TypeError` on numbers and strings
(string indices must be integers). -/
def pySubscript (a : PyVal) (key : String) : Except PyErr PyVal :=
  match a with
  | .vdict q => if key = "Value" then .ok (.num q) else .error .keyError
  | _ => .error .typeError

/-! ### The Rectifier object state after `__init__` (rectifier.py lines 98-127) -/

/-- The five telemetry fields of the read dictionary. -/
inductive PhysicalField where
  | Output_Voltage
  | Output_Current_Value
  | Output_Current_Limit
  | Temperature
  | Input_Voltage
deriving DecidableEq, Repr

/-- The `Postprocessing` dictionary (separate object, not aliased with the
read stores), flattened to its five leaf entries. -/
structure PostprocessingState where
  output_power_value : PyVal
  output_power_percent_of_rated : PyVal
  output_power_percent_of_limit : PyVal
  output_current_percent_of_rated : PyVal
  output_current_percent_of_limit : PyVal
deriving DecidableEq, Repr

/-- The object state the claims touch.  `heap` is the reference heap of
field dictionaries; `readoutRef`, `ciRef`, `stRef`, `cuRef` are the dict
references held by the attributes `Readout`, `Counter_Invalid`, `Status`
and `Counter_Unchanged`.  `tsDefined` records whether the attribute
`Received_Timestamps` exists on the object (no code in the repository ever
creates it, so it is `false` in every reachable state); `timestamps` is its
content in the counterfactual case that it does. -/
structure RectState where
  heap : Nat → PhysicalField → PyVal
  readoutRef : Nat
  ciRef : Nat
  stRef : Nat
  cuRef : Nat
  tsDefined : Bool
  timestamps : PhysicalField → ℚ
  post : PostprocessingState
  operatingMode : String

/-- Write `v` at field `f` of the dictionary at heap address `r`. -/
def heapWrite (h : Nat → PhysicalField → PyVal) (r : Nat) (f : PhysicalField) (v : PyVal) :
    Nat → PhysicalField → PyVal :=
  fun r2 f2 => if r2 = r ∧ f2 = f then v else h r2 f2

/-- The single `readDictionnary` built by the constructor:
`dict(Output_Voltage = {'Value' : 0} , ... , Input_Voltage = {'Value' : 0})`. -/
def initReadDict : PhysicalField → PyVal := fun _ => .vdict 0

/-- Object state right after `__init__` (rectifier.py lines 98-127).  The
four assignments `self.Readout = readDictionnary`,
`self.Counter_Invalid = readDictionnary`, `self.Status = readDictionnary`,
`self.Counter_Unchanged = readDictionnary` all store a reference to the same
object, so all four references point at heap address 0 (the heap maps every
other, never-allocated address to the same default; nothing ever reads one).
`Received_Timestamps` is not assigned anywhere, `Operating_Mode` is the
empty string and `Postprocessing` leaves are all 0. -/
def initState : RectState where
  heap := fun _ => initReadDict
  readoutRef := 0
  ciRef := 0
  stRef := 0
  cuRef := 0
  tsDefined := false
  timestamps := fun _ => 0
  post :=
    { output_power_value := .num 0
      output_power_percent_of_rated := .num 0
      output_power_percent_of_limit := .num 0
      output_current_percent_of_rated := .num 0
      output_current_percent_of_limit := .num 0 }
  operatingMode := ""

/-- `self.Readout[f]` as `data_processing`/`data_analysis` read it. -/
def readoutOf (s : RectState) (f : PhysicalField) : PyVal := s.heap s.readoutRef f

/-- `self.Counter_Invalid[f]`. -/
def counterInvalidOf (s : RectState) (f : PhysicalField) : PyVal := s.heap s.ciRef f

/-- `self.Status[f]`. -/
def statusOf (s : RectState) (f : PhysicalField) : PyVal := s.heap s.stRef f

/-- `self.Counter_Unchanged[f]`. -/
def counterUnchangedOf (s : RectState) (f : PhysicalField) : PyVal := s.heap s.cuRef f

/-- The assignment `self.Readout[f] = v` (rectifier.py line 303). -/
def readout_assign (s : RectState) (f : PhysicalField) (v : PyVal) : RectState :=
  { s with heap := heapWrite s.heap s.readoutRef f v }

/-- The assignment `self.Counter_Invalid[f] = v` (the write half of the
`+=` on rectifier.py lines 277 and 284). -/
def counter_invalid_assign (s : RectState) (f : PhysicalField) (v : PyVal) : RectState :=
  { s with heap := heapWrite s.heap s.ciRef f v }

/-- The assignment `self.Status[f] = v` (rectifier.py lines 281, 288, 296, 306). -/
def status_assign (s : RectState) (f : PhysicalField) (v : PyVal) : RectState :=
  { s with heap := heapWrite s.heap s.stRef f v }

/-- The assignment `self.Counter_Unchanged[f] = v` (rectifier.py lines 292, 309). -/
def counter_unchanged_assign (s : RectState) (f : PhysicalField) (v : PyVal) : RectState :=
  { s with heap := heapWrite s.heap s.cuRef f v }

/-! ### `data_processing` (rectifier.py lines 271-309) -/

/-- `data_processing(field_name, value_received, value_min, value_max)`.
`now` stands for the `time.time()` call on line 273.  The translation keeps
the source's control flow exactly: the `value_received < value_min` block is
a plain `if` (not `elif`), so a below-minimum sample falls through into the
`value_received > value_max` / `else` chain afterwards; each `x += 1`
re-reads, adds (raising `TypeError` on the initial `{'Value': 0}` dict
entries) and writes back; the `else` branch assigns
`self.Received_Timestamps[field_name]`, which raises `AttributeError`
because the constructor never creates that attribute. -/
def data_processing (s : RectState) (f : PhysicalField) (v mn mx now : ℚ) :
    Except PyErr RectState := do
  let s ←
    if v < mn then do
      let c ← pyAdd (counterInvalidOf s f) (.num 1)
      let s := counter_invalid_assign s f c
      let b ← pyGe (counterInvalidOf s f) (.num MAX_COUNT_INVALID_DATA)
      pure (if b then status_assign s f (.str "LOW") else s)
    else pure s
  if v > mx then do
    let c ← pyAdd (counterInvalidOf s f) (.num 1)
    let s := counter_invalid_assign s f c
    let b ← pyGe (counterInvalidOf s f) (.num MAX_COUNT_INVALID_DATA)
    pure (if b then status_assign s f (.str "HIGH") else s)
  else
    if pyEq (.num v) (readoutOf s f) then do
      let c ← pyAdd (counterUnchangedOf s f) (.num 1)
      let s := counter_unchanged_assign s f c
      let b ← pyGe (counterUnchangedOf s f) (.num MAX_COUNT_UNCHANGED_DATA)
      pure (if b then status_assign s f (.str "STUCK") else s)
    else
      if s.tsDefined then
        let s := { s with timestamps := fun g => if g = f then now else s.timestamps g }
        let s := readout_assign s f (.num v)
        let s := status_assign s f (.str "NORMAL")
        pure (counter_unchanged_assign s f (.num 0))
      else .error .attributeError

/-! ### `data_analysis` (rectifier.py lines 312-332) -/

/-- `data_analysis()`, kept in the source's statement order.  Line 314
compares the raw dictionary entries (`self.Readout['Output_Current_Value']`,
not `...['Value']`), so with the constructor's `{'Value': 0}` entries the
right-hand side `0.95 * dict` raises `TypeError` before anything else runs;
the later lines subscript the entries with `['Value']`.  3000 is
`OUTPUT_POWER_RATED`, 19/20 is the literal 0.95. -/
def data_analysis (s : RectState) : Except PyErr RectState := do
  let rhs ← pyMul (.num (19 / 20)) (readoutOf s .Output_Current_Limit)
  let b ← pyGt (readoutOf s .Output_Current_Value) rhs
  let s := { s with operatingMode := if b then "Current_Limit" else "Voltage" }
  let ocv1 ← pySubscript (readoutOf s .Output_Current_Value) "Value"
  let d1 ← pyDiv ocv1 (.num OUTPUT_CURRENT_RATED_VALUE)
  let t1 ← pyMul d1 (.num 100)
  let s := { s with post := { s.post with output_current_percent_of_rated := t1 } }
  let ocv2 ← pySubscript (readoutOf s .Output_Current_Value) "Value"
  let ocl2 ← pySubscript (readoutOf s .Output_Current_Limit) "Value"
  let d2 ← pyDiv ocv2 ocl2
  let t2 ← pyMul d2 (.num 100)
  let s := { s with post := { s.post with output_current_percent_of_limit := t2 } }
  let ov3 ← pySubscript (readoutOf s .Output_Voltage) "Value"
  let ocv3 ← pySubscript (readoutOf s .Output_Current_Value) "Value"
  let t3 ← pyMul ov3 ocv3
  let s := { s with post := { s.post with output_power_value := t3 } }
  let d4 ← pyDiv s.post.output_power_value (.num 3000)
  let t4 ← pyMul d4 (.num 100)
  let s := { s with post := { s.post with output_power_percent_of_rated := t4 } }
  let t5 ← pyMul s.post.output_power_value s.post.output_current_percent_of_limit
  pure { s with post := { s.post with output_power_percent_of_limit := t5 } }

/-! ### The receive listener `__can_listener_store` (rectifier.py lines 336-358) -/

/-- An inbound CAN message as python-can delivers it: its data bytes. -/
structure CanMsg where
  data : List Nat
deriving DecidableEq, Repr

/-- The body of `__can_listener_store` as it would execute if a message
named `msg` were in scope (it never is, see `can_listener_store`): response
test `msg.data[0] == 0x41`, big-endian float decode of `msg.data[4:8]`
(`struct.unpack('>f', ...)` raises `struct.error` unless the slice has
exactly 4 bytes), then dispatch on `msg.data[3]` to `data_processing` with
the per-field plausibility bounds; an unrecognized selector or a
non-response first byte falls through with no state change. -/
def can_listener_store_body (s : RectState) (m : CanMsg) (now : ℚ) :
    Except PyErr RectState :=
  match m.data.get? 0 with
  | none => .error .indexError
  | some b0 =>
    if b0 = 0x41 then
      match (m.data.drop 4).take 4 with
      | [a, b, c, d] =>
        let val := val32 (a * 16777216 + b * 65536 + c * 256 + d)
        match m.data.get? 3 with
        | none => .error .indexError
        | some sel =>
          if sel = 0x01 then
            data_processing s .Output_Voltage val OUTPUT_VOLTAGE_MIN OUTPUT_VOLTAGE_MAX now
          else if sel = 0x02 then
            data_processing s .Output_Current_Value val OUTPUT_CURRENT_MIN OUTPUT_CURRENT_MAX now
          else if sel = 0x03 then
            data_processing s .Output_Current_Limit val OUTPUT_CURRENT_MIN OUTPUT_CURRENT_MAX now
          else if sel = 0x04 then
            data_processing s .Temperature val TEMPERATURE_MIN TEMPERATURE_MAX now
          else if sel = 0x05 then
            data_processing s .Input_Voltage val INPUT_VOLTAGE_MIN INPUT_VOLTAGE_MAX now
          else pure s
      | _ => .error .structError
    else pure s

/-- The local names of the body of `def __can_listener_store(self):` that
could bind `msg`: the method declares no such parameter and assigns no such
local, so the list is empty. -/
def listenerStoreLocals : List (String × CanMsg) := []

/-- Name resolution for the free name `msg` inside `__can_listener_store`. -/
def lookupMsg : Option CanMsg :=
  (listenerStoreLocals.find? (fun p => decide (p.fst = "msg"))).map Prod.snd

/-- `__can_listener_store(self)` called with no extra argument: the first
statement `if msg.data[0] == 0x41:` evaluates the unbound name `msg` and
raises `NameError` before any decoding. -/
def can_listener_store (s : RectState) (now : ℚ) : Except PyErr RectState :=
  match lookupMsg with
  | none => .error .nameError
  | some m => can_listener_store_body s m now

/-- Number of positional parameters `def __can_listener_store(self):`
accepts beyond `self`: zero. -/
abbrev listenerStoreParamCount : Nat := 0

/-- Invocation of the bound method `self.__can_listener_store` with the
positional arguments `args`, as `can.Notifier` performs it with one argument
(the received message): Python raises `TypeError` when the argument count
does not match the parameter list, before the body runs. -/
def invoke_can_listener_store (s : RectState) (args : List CanMsg) (now : ℚ) :
    Except PyErr RectState :=
  if args.length = listenerStoreParamCount then can_listener_store s now
  else .error .typeError

/-! ### Helper lemmas -/

/-- Characterisation of `Int.log 2` by a power bracket. -/
lemma log2_eq (q : ℚ) (e : ℤ) (h1 : (2 : ℚ) ^ e ≤ q) (h2 : q < (2 : ℚ) ^ (e + 1)) :
    Int.log 2 q = e := by
  have hq : (0 : ℚ) < q := lt_of_lt_of_le (by positivity) h1
  have ha : e ≤ Int.log 2 q := by
    rw [← Int.zpow_le_iff_le_log (by norm_num) hq]
    exact_mod_cast h1
  have hb : Int.log 2 q < e + 1 := by
    rw [← Int.lt_zpow_iff_log_lt (by norm_num) hq]
    exact_mod_cast h2
  omega

/-- Rounding an integer returns it. -/
lemma roundNE_intCast (z : ℤ) : roundNearestEven (z : ℚ) = z := by
  unfold roundNearestEven
  rw [Int.floor_intCast]
  rw [if_pos (by rw [sub_self]; norm_num)]

/-- The round-to-nearest-even result is at least any integer lower bound of
the argument. -/
lemma le_roundNE {q : ℚ} {a : ℤ} (h : (a : ℚ) ≤ q) : a ≤ roundNearestEven q := by
  have hf : a ≤ Int.floor q := Int.le_floor.mpr h
  unfold roundNearestEven
  split_ifs <;> omega

/-- The round-to-nearest-even result is at most any integer upper bound of
the argument. -/
lemma roundNE_le {q : ℚ} {b : ℤ} (h : q ≤ (b : ℚ)) : roundNearestEven q ≤ b := by
  have hf : Int.floor q ≤ b := by
    have := Int.floor_le_floor h
    rwa [Int.floor_intCast] at this
  have hfl : (Int.floor q : ℚ) ≤ q := Int.floor_le q
  unfold roundNearestEven
  split_ifs with h1 h2 h3
  · exact hf
  · have hs : (Int.floor q : ℚ) + 1 / 2 ≤ q := by linarith [not_lt.mp h1]
    have hq2 : (Int.floor q : ℚ) < (b : ℚ) := by linarith
    have : Int.floor q < b := by exact_mod_cast hq2
    omega
  · exact hf
  · have hs : (Int.floor q : ℚ) + 1 / 2 ≤ q := by linarith [not_lt.mp h1]
    have hq2 : (Int.floor q : ℚ) < (b : ℚ) := by linarith
    have : Int.floor q < b := by exact_mod_cast hq2
    omega

/-- The digit extraction does not depend on the fuel once the fuel is at
least the input. -/
lemma hexAux_ext : ∀ (f1 f2 n : Nat), n ≤ f1 → n ≤ f2 →
    hexDigitsRevAux f1 n = hexDigitsRevAux f2 n := by
  intro f1
  induction f1 with
  | zero =>
    intro f2 n h1 h2
    have hn : n = 0 := by omega
    subst hn
    cases f2 <;> simp [hexDigitsRevAux]
  | succ f ih =>
    intro f2 n h1 h2
    cases f2 with
    | zero =>
      have hn : n = 0 := by omega
      subst hn
      simp [hexDigitsRevAux]
    | succ g =>
      by_cases hn : n = 0
      · subst hn; simp [hexDigitsRevAux]
      · simp only [hexDigitsRevAux, if_neg hn]
        congr 1
        exact ih g (n / 16) (by omega) (by omega)

/-- One digit-extraction step of `hexDigitsRev` on a positive input. -/
lemma hexDigitsRev_step (n : Nat) (h : n ≠ 0) :
    hexDigitsRev n = n % 16 :: hexDigitsRev (n / 16) := by
  unfold hexDigitsRev
  cases n with
  | zero => exact absurd rfl h
  | succ k =>
    simp only [hexDigitsRevAux, if_neg h]
    congr 1
    exact hexAux_ext k ((k + 1) / 16) ((k + 1) / 16) (by omega) (by omega)

/-- On a 32-bit value with a nonzero leading hex digit
(268435456 = 16^7 = 2^28, 4294967296 = 16^8 = 2^32), the hex round-trip of
`float_to_bytearray` produces exactly the four bytes of the value, most
significant first. -/
lemma bytesFromHex_four (n : Nat) (hlo : 268435456 ≤ n) (hhi : n < 4294967296) :
    fromhexPairs (hexDigits n) = some (beBytes n) := by
  have s0 : hexDigitsRev n = n % 16 :: hexDigitsRev (n / 16) := hexDigitsRev_step n (by omega)
  have s1 : hexDigitsRev (n / 16) = n / 16 % 16 :: hexDigitsRev (n / 16 / 16) :=
    hexDigitsRev_step _ (by omega)
  have s2 : hexDigitsRev (n / 16 / 16) = n / 16 / 16 % 16 :: hexDigitsRev (n / 16 / 16 / 16) :=
    hexDigitsRev_step _ (by omega)
  have s3 : hexDigitsRev (n / 16 / 16 / 16) =
      n / 16 / 16 / 16 % 16 :: hexDigitsRev (n / 16 / 16 / 16 / 16) :=
    hexDigitsRev_step _ (by omega)
  have s4 : hexDigitsRev (n / 16 / 16 / 16 / 16) =
      n / 16 / 16 / 16 / 16 % 16 :: hexDigitsRev (n / 16 / 16 / 16 / 16 / 16) :=
    hexDigitsRev_step _ (by omega)
  have s5 : hexDigitsRev (n / 16 / 16 / 16 / 16 / 16) =
      n / 16 / 16 / 16 / 16 / 16 % 16 :: hexDigitsRev (n / 16 / 16 / 16 / 16 / 16 / 16) :=
    hexDigitsRev_step _ (by omega)
  have s6 : hexDigitsRev (n / 16 / 16 / 16 / 16 / 16 / 16) =
      n / 16 / 16 / 16 / 16 / 16 / 16 % 16 ::
        hexDigitsRev (n / 16 / 16 / 16 / 16 / 16 / 16 / 16) :=
    hexDigitsRev_step _ (by omega)
  have s7 : hexDigitsRev (n / 16 / 16 / 16 / 16 / 16 / 16 / 16) =
      n / 16 / 16 / 16 / 16 / 16 / 16 / 16 % 16 ::
        hexDigitsRev (n / 16 / 16 / 16 / 16 / 16 / 16 / 16 / 16) :=
    hexDigitsRev_step _ (by omega)
  have s8 : n / 16 / 16 / 16 / 16 / 16 / 16 / 16 / 16 = 0 := by omega
  unfold hexDigits
  rw [s0, s1, s2, s3, s4, s5, s6, s7, s8]
  rw [show hexDigitsRev 0 = [] from rfl]
  simp only [List.reverse_cons, List.reverse_nil, List.nil_append, List.cons_append,
    List.append_nil]
  simp only [fromhexPairs, Option.map_some', Option.map_none', beBytes]
  refine congrArg some ?_
  simp only [List.cons.injEq, and_true]
  refine ⟨?_, ?_, ?_, ?_⟩ <;> omega

/-- For a voltage in the supported range, the float32 bit pattern has
exponent field 132 and lies between 0x42240000 and 0x426A0000, in particular
inside [2^28, 2^32). -/
lemma f32bits_voltage_range (q : ℚ) (h1 : 41 ≤ q) (h2 : q ≤ 117 / 2) :
    268435456 ≤ f32bits q ∧ f32bits q < 4294967296 := by
  have hq0 : ¬ q ≤ 0 := by linarith
  have hlog : Int.log 2 q = 5 := log2_eq q 5 (by norm_num; linarith) (by norm_num; linarith)
  have hp : (2 : ℚ) ^ ((23 : ℤ) - 5) = 262144 := by norm_num
  have hm1 : (10747904 : ℤ) ≤ roundNearestEven (q * 262144) := by
    refine le_roundNE ?_
    have hscale := mul_le_mul_of_nonneg_right h1 (show (0 : ℚ) ≤ 262144 by norm_num)
    push_cast
    linarith
  have hm2 : roundNearestEven (q * 262144) ≤ (15335424 : ℤ) := by
    refine roundNE_le ?_
    have hscale := mul_le_mul_of_nonneg_right h2 (show (0 : ℚ) ≤ 262144 by norm_num)
    push_cast
    linarith
  unfold f32bits
  rw [if_neg hq0, hlog, hp]
  rw [if_neg (by omega : ¬ roundNearestEven (q * 262144) = 16777216)]
  constructor <;> omega

/-- Concrete evaluation: the float32 bits of 48.0 are 0x42400000. -/
lemma f32bits_48 : f32bits 48 = 1111490560 := by
  have hlog : Int.log 2 (48 : ℚ) = 5 := log2_eq 48 5 (by norm_num) (by norm_num)
  have ha : (48 : ℚ) * (2 : ℚ) ^ ((23 : ℤ) - 5) = ((12582912 : ℤ) : ℚ) := by norm_num
  unfold f32bits
  rw [if_neg (by norm_num : ¬ (48 : ℚ) ≤ 0), hlog, ha, roundNE_intCast]
  rw [if_neg (by norm_num : ¬ (12582912 : ℤ) = 16777216)]
  decide

/-- Concrete evaluation: the float32 bits of 0.605 = 121/200 are 0x3F1AE148
(round-to-nearest of 0.605 * 2^24 = 10150215.68 is 10150216). -/
lemma f32bits_605 : f32bits (121 / 200) = 1058726216 := by
  have hlog : Int.log 2 ((121 : ℚ) / 200) = -1 := log2_eq _ (-1) (by norm_num) (by norm_num)
  have ha : (121 : ℚ) / 200 * (2 : ℚ) ^ ((23 : ℤ) - (-1)) = 253755392 / 25 := by norm_num
  have hm : roundNearestEven ((121 : ℚ) / 200 * (2 : ℚ) ^ ((23 : ℤ) - (-1))) = 10150216 := by
    rw [ha]
    unfold roundNearestEven
    have hf : Int.floor ((253755392 : ℚ) / 25) = 10150215 := by
      rw [Int.floor_eq_iff]
      constructor <;> norm_num
    rw [hf, if_neg (by push_cast; norm_num), if_pos (by push_cast; norm_num)]
    decide
  unfold f32bits
  rw [if_neg (by norm_num : ¬ (121 : ℚ) / 200 ≤ 0), hlog, hm]
  rw [if_neg (by norm_num : ¬ (10150216 : ℤ) = 16777216)]
  decide

/-- Frame actually produced for an in-range setpoint of 31.25 A with
`fixed = true`: `__set_current_value` converts 31.25 to the percentage 60.5,
`__set_current_percentage` divides by 100 and encodes 0.605, whose float32
bits 0x3F1AE148 appear in the payload most significant byte first. -/
lemma set_current_value_3125 :
    set_current_value (125 / 4) true =
      SendResult.sent [0x03, 0xF0, 0x00, 0x19, 0x3F, 0x1A, 0xE1, 0x48] := by
  have harg : (125 : ℚ) / 4 / OUTPUT_CURRENT_RATED_VALUE * OUTPUT_CURRENT_RATED_PERCENTAGE =
      121 / 2 := by
    norm_num [OUTPUT_CURRENT_RATED_VALUE, OUTPUT_CURRENT_RATED_PERCENTAGE]
  have harg2 : (121 : ℚ) / 2 / 100 = 121 / 200 := by norm_num
  have hb : float_to_bytearray (121 / 200) = some [0x3F, 0x1A, 0xE1, 0x48] := by
    unfold float_to_bytearray
    rw [f32bits_605]
    decide
  unfold set_current_value
  rw [if_pos (by norm_num [OUTPUT_CURRENT_MIN, OUTPUT_CURRENT_MAX, OUTPUT_CURRENT_RATED_VALUE] :
    OUTPUT_CURRENT_MIN ≤ (125 : ℚ) / 4 ∧ (125 : ℚ) / 4 ≤ OUTPUT_CURRENT_MAX), harg]
  unfold set_current_percentage
  rw [if_pos
    (by norm_num [OUTPUT_CURRENT_RATED_PERCENTAGE_MIN, OUTPUT_CURRENT_RATED_PERCENTAGE_MAX] :
      OUTPUT_CURRENT_RATED_PERCENTAGE_MIN ≤ (121 : ℚ) / 2 ∧
        (121 : ℚ) / 2 ≤ OUTPUT_CURRENT_RATED_PERCENTAGE_MAX), harg2, hb]
  decide

/-! ### Claim theorems -/

/-- C1, counterexample to the claim as stated: at the in-range voltage 48.0
with `fixed = false` the transmitted frame is
`[0x03, 0xF0, 0x00, 0x21, 0x42, 0x40, 0x00, 0x00]`, whose last four bytes
are *not* the little-endian IEEE-754 bytes `[0x00, 0x00, 0x40, 0x42]` of
48.0 that the claim requires. -/
theorem C1_little_endian_counterexample :
    set_voltage 48 false ≠
      SendResult.sent ([0x03, 0xF0, 0x00, 0x21] ++ leBytes (f32bits 48)) := by
  have hb : float_to_bytearray 48 = some [0x42, 0x40, 0x00, 0x00] := by
    unfold float_to_bytearray
    rw [f32bits_48]
    decide
  have hsv : set_voltage 48 false =
      SendResult.sent [0x03, 0xF0, 0x00, 0x21, 0x42, 0x40, 0x00, 0x00] := by
    unfold set_voltage
    rw [if_pos (by norm_num : OUTPUT_VOLTAGE_MIN ≤ (48 : ℚ) ∧ (48 : ℚ) ≤ OUTPUT_VOLTAGE_MAX), hb]
    decide
  rw [hsv, f32bits_48]
  decide

/-- C1, amended: for every voltage `v` with `41.0 ≤ v ≤ 58.5`, encoding the
output-voltage setpoint with `fixed = false` produces exactly one 8-byte
frame whose first four bytes are `[0x03, 0xF0, 0x00, 0x21]` and whose last
four bytes are the **big-endian** IEEE-754 single-precision bytes of `v`
(most significant byte first); with `fixed = true` the fourth byte is `0x24`
instead and the rest is unchanged. -/
theorem C1_voltage_frame_big_endian (q : ℚ) (fixed : Bool)
    (h1 : OUTPUT_VOLTAGE_MIN ≤ q) (h2 : q ≤ OUTPUT_VOLTAGE_MAX) :
    set_voltage q fixed =
      SendResult.sent
        ([0x03, 0xF0, 0x00, if fixed then 0x24 else 0x21] ++ beBytes (f32bits q)) := by
  obtain ⟨hlo, hhi⟩ := f32bits_voltage_range q h1 h2
  have hb : float_to_bytearray q = some (beBytes (f32bits q)) := by
    unfold float_to_bytearray
    exact bytesFromHex_four _ hlo hhi
  unfold set_voltage
  rw [if_pos ⟨h1, h2⟩, hb]

/-- C1, witness: the amended theorem applied at the concrete in-range
voltage 48.0. -/
theorem C1_voltage_frame_witness :
    OUTPUT_VOLTAGE_MIN ≤ (48 : ℚ) ∧ (48 : ℚ) ≤ OUTPUT_VOLTAGE_MAX ∧
    set_voltage 48 false =
      SendResult.sent
        ([0x03, 0xF0, 0x00, if false then 0x24 else 0x21] ++ beBytes (f32bits 48)) :=
  ⟨by norm_num, by norm_num,
    C1_voltage_frame_big_endian 48 false (by norm_num) (by norm_num)⟩

/-- C2 (code bug): an out-of-range sample does not increment the invalid
counter; on the state the constructor actually builds, the very first
statement `self.Counter_Invalid[field_name] += 1` raises `TypeError`
(`dict + int`) because all four read-side stores alias the single dictionary
of `{'Value': 0}` entries — shown for a Temperature sample above the maximum
(100 > 60) and one below the minimum (-50 < -40). -/
theorem C2_out_of_range_sample_raises :
    data_processing initState .Temperature 100 TEMPERATURE_MIN TEMPERATURE_MAX 0 =
      Except.error PyErr.typeError ∧
    data_processing initState .Temperature (-50) TEMPERATURE_MIN TEMPERATURE_MAX 0 =
      Except.error PyErr.typeError :=
  ⟨rfl, rfl⟩

/-- C3 (code bug): an in-range sample does not reset the invalid counter —
`data_processing` contains no write to `Counter_Invalid` outside the two
increments, and on the state the constructor actually builds an in-range
sample (25 °C for Temperature) raises `AttributeError` at
`self.Received_Timestamps[field_name] = unixtime`, because the attribute is
never created. -/
theorem C3_in_range_sample_raises :
    data_processing initState .Temperature 25 TEMPERATURE_MIN TEMPERATURE_MAX 0 =
      Except.error PyErr.attributeError :=
  rfl

/-- C4, counterexample to the claimed independence of the four stores:
performing the assignment `self.Status['Temperature'] = 'LOW'` on the
freshly constructed state changes the value read back through
`self.Readout['Temperature']`. -/
theorem C4_independence_counterexample :
    readoutOf (status_assign initState .Temperature (.str "LOW")) .Temperature ≠
      readoutOf initState .Temperature := by
  decide

/-- C4, amended: after the constructor runs, `Readout`, `Counter_Invalid`,
`Status` and `Counter_Unchanged` are references to the same single
dictionary object, so a write through any one of them (here: through
`Status`) is visible through the other three for that field. -/
theorem C4_shared_dictionary :
    (initState.readoutRef = initState.ciRef ∧ initState.readoutRef = initState.stRef ∧
      initState.readoutRef = initState.cuRef) ∧
    ∀ (f : PhysicalField) (v : PyVal),
      readoutOf (status_assign initState f v) f = v ∧
      counterInvalidOf (status_assign initState f v) f = v ∧
      counterUnchangedOf (status_assign initState f v) f = v := by
  refine ⟨⟨rfl, rfl, rfl⟩, ?_⟩
  intro f v
  refine ⟨?_, ?_, ?_⟩ <;>
    simp [readoutOf, counterInvalidOf, counterUnchangedOf, status_assign, initState, heapWrite]

/-- C5 (code bug): the registered listener `__can_listener_store` never gets
to the `data[0] == 0x41` test, the selector dispatch or the big-endian
decode — its body evaluates the unbound name `msg` and raises `NameError`
on every invocation, so no frame is ever treated as a response and no state
is ever left "unchanged without error". -/
theorem C5_listener_raises_before_decode :
    can_listener_store initState 0 = Except.error PyErr.nameError :=
  rfl

/-- C6, counterexample to the claim as stated: requesting 31.25 A with
`fixed = true` transmits `[0x03, 0xF0, 0x00, 0x19, 0x3F, 0x1A, 0xE1, 0x48]`,
whose payload is *not* the little-endian byte order
`[0x48, 0xE1, 0x1A, 0x3F]` of 0.605's float32 bits that the claim
requires. -/
theorem C6_little_endian_counterexample :
    set_current_value (125 / 4) true ≠
      SendResult.sent ([0x03, 0xF0, 0x00, 0x19] ++ leBytes (f32bits (121 / 200))) := by
  rw [set_current_value_3125, f32bits_605]
  decide

/-- C6, amended: requesting a current-limit value of 31.25 A with
`fixed = true` converts it to the percentage 60.5 (via
`current / 62.5 * 121`) and transmits a frame with prefix
`[0x03, 0xF0, 0x00, 0x19]` whose payload is the **big-endian** IEEE-754
bytes of 0.605 (`[0x3F, 0x1A, 0xE1, 0x48]`, most significant byte
first). -/
theorem C6_current_limit_frame :
    set_current_value (125 / 4) true =
      SendResult.sent ([0x03, 0xF0, 0x00, 0x19] ++ beBytes (f32bits (121 / 200))) ∧
    (125 : ℚ) / 4 / OUTPUT_CURRENT_RATED_VALUE * OUTPUT_CURRENT_RATED_PERCENTAGE = 121 / 2 := by
  constructor
  · rw [set_current_value_3125, f32bits_605]
    decide
  · norm_num [OUTPUT_CURRENT_RATED_VALUE, OUTPUT_CURRENT_RATED_PERCENTAGE]

/-- C7 (code bug): feeding an identical-value run can never reach `Stuck`;
already the *first* in-range sample (here 50.0 V for the freshly initialized
Input_Voltage field, whose stored entry is the `{'Value': 0}` dict, so
`value_received == self.Readout[field_name]` is `False`) raises
`AttributeError` at the `Received_Timestamps` assignment, before anything is
stored or counted — so no repeat can ever find an equal stored value, let
alone increment the unchanged counter to 32. -/
theorem C7_identical_sample_raises :
    data_processing initState .Input_Voltage 50 INPUT_VOLTAGE_MIN INPUT_VOLTAGE_MAX 0 =
      Except.error PyErr.attributeError :=
  rfl

/-- C8 (confirmed): for every requested output voltage outside
`[41.0, 58.5]`, `__set_voltage` takes the `else` branch: no frame is
constructed, nothing is transmitted, and the rejection is a local validation
message to the operator, not a device error. -/
theorem C8_out_of_range_voltage_rejected (q : ℚ) (fixed : Bool)
    (h : ¬ (OUTPUT_VOLTAGE_MIN ≤ q ∧ q ≤ OUTPUT_VOLTAGE_MAX)) :
    set_voltage q fixed = SendResult.validationError := by
  unfold set_voltage
  rw [if_neg h]

/-- C8, witness: the theorem applied at the concrete out-of-range voltage
60.0 from the spec's example. -/
theorem C8_out_of_range_voltage_witness :
    ¬ (OUTPUT_VOLTAGE_MIN ≤ (60 : ℚ) ∧ (60 : ℚ) ≤ OUTPUT_VOLTAGE_MAX) ∧
    set_voltage 60 false = SendResult.validationError :=
  ⟨by norm_num, C8_out_of_range_voltage_rejected 60 false (by norm_num)⟩

/-- C9, counterexample to the claim as stated: on the initial state, whose
stored `Output_Current_Limit` readout is the `{'Value': 0}` entry (limit 0),
`data_analysis` does not skip the percent-of-limit computation and carry on
— it does not complete at all. -/
theorem C9_skip_counterexample :
    ¬ ∃ s2, data_analysis initState = Except.ok s2 ∧
        s2.post.output_current_percent_of_limit =
          initState.post.output_current_percent_of_limit := by
  rintro ⟨s2, h, -⟩
  have h0 : data_analysis initState = Except.error PyErr.typeError := rfl
  rw [h0] at h
  exact Except.noConfusion h

/-- C9, amended: the code contains no zero-limit guard at all — whenever the
stored `Output_Current_Limit` readout is the dictionary `{'Value': 0}` (as
in the initial state), `data_analysis` raises `TypeError` already at the
operating-mode comparison `0.95 * self.Readout['Output_Current_Limit']`,
before the `Percent_Of_Limit` division is reached; the division itself is
written unconditionally. -/
theorem C9_no_zero_guard (s : RectState)
    (h : readoutOf s .Output_Current_Limit = PyVal.vdict 0) :
    data_analysis s = Except.error PyErr.typeError := by
  unfold data_analysis
  rw [h]
  rfl

/-- C9, witness: the amended theorem applied at the initial state. -/
theorem C9_no_zero_guard_witness :
    data_analysis initState = Except.error PyErr.typeError :=
  C9_no_zero_guard initState rfl

/-- C10 (confirmed): in non-debug mode the registered listener is the bound
method `self.__can_listener_store`, which accepts no argument beyond `self`;
`can.Notifier`'s invocation with the received message raises `TypeError`
(argument-count mismatch) before the body runs, and even an argument-free
invocation raises `NameError` on the unbound name `msg` before any decoding
— so the listener returns an error on every frame from every state, and no
`Readout` value, counter or status is ever updated through the non-debug
receive path. -/
theorem C10_listener_never_updates_state :
    (∀ (s : RectState) (m : CanMsg) (now : ℚ),
      invoke_can_listener_store s [m] now = Except.error PyErr.typeError) ∧
    (∀ (s : RectState) (now : ℚ),
      invoke_can_listener_store s [] now = Except.error PyErr.nameError) :=
  ⟨fun _ _ _ => rfl, fun _ _ => rfl⟩
